import Mathlib

/-!
Shallow embedding of the `gologs` leveled-logging library (file `gologs.go`)
and verification of its specification claims.

Modelling conventions:
* `LogLevel` is `Int` (Go `type LogLevel int`).
* Go maps become `LogLevel → Option _` lookup functions; a `nil` map is
  `fun _ => none`.
* Writers (`io.Writer`) and open file handles are identified by a numeric id
  (`Writer`); `os.Stdout` is writer id 0.
* I/O effects are made explicit: an emission returns the list of
  `(writer, bytes)` console writes, the list of strings appended to the log
  file, and the list of diagnostic lines printed with `fmt.Println`/`Printf`.
* `os.OpenFile` becomes an environment parameter
  `openF : String → OpenFlags → Except String Writer`.
* The mutable package-level registries (`Levels`, `DefaultFormatterMap`,
  `DefaultColorMap`) are gathered in a `Globals` record threaded explicitly.
* The mutexes (`mu`, `muf`) guard concurrency only and have no sequential
  effect, so they are not modelled.
-/

namespace Gologs

/-- Go `type LogLevel int`. -/
abbrev LogLevel := Int

def Debug : LogLevel := 10
def Info : LogLevel := 20
def Hint : LogLevel := 22
def Important : LogLevel := 24
def Warn : LogLevel := 30
def Error : LogLevel := 40

/-- An `io.Writer` / open `os.File`, identified by a numeric id. -/
structure Writer where
  id : Nat
deriving DecidableEq, Repr

/-- Writer id of `os.Stdout`. -/
def osStdout : Writer := ⟨0⟩

/-- Flag set passed to `os.OpenFile` (third argument omitted: the permission
bits play no role in the claims). -/
structure OpenFlags where
  read : Bool
  write : Bool
  create : Bool
  append : Bool
  trunc : Bool
deriving DecidableEq, Repr

/-- The package-level mutable registries of `gologs.go`
(`Levels`, `DefaultFormatterMap`, `DefaultColorMap`). -/
structure Globals where
  Levels : LogLevel → Option String
  DefaultFormatterMap : LogLevel → Option String
  DefaultColorMap : LogLevel → Option (String → String)

/-- Initial contents of the `Levels` map (gologs.go lines 30–37). -/
def initLevels : LogLevel → Option String := fun l =>
  if l = Debug then some "Debug"
  else if l = Info then some "Info"
  else if l = Error then some "Error"
  else if l = Warn then some "Warn"
  else if l = Hint then some "Hint"
  else if l = Important then some "Important"
  else none

/-- Initial contents of `DefaultFormatterMap` (gologs.go lines 50–57).
Braces of the literal replacement tokens are written with `\x7b`/`\x7d`
escapes. -/
def initFormatterMap : LogLevel → Option String := fun l =>
  if l = Debug then some "[Debug] %s \n"
  else if l = Warn then some "[Warn] %s \n"
  else if l = Error then some "[Error] %s \n"
  else if l = Info then some "[-] %s \x7b\x7bsuffix\x7d\x7d\n"
  else if l = Hint then some "[+] %s \x7b\x7bsuffix\x7d\x7d\n"
  else if l = Important then some "[*] %s \x7b\x7bsuffix\x7d\x7d\n"
  else none

/-- The literal token replaced by the suffix producer's output. -/
def suffTok : String := "\x7b\x7bsuffix\x7d\x7d"

/-- The literal token replaced by the prefix producer's output. -/
def prefTok : String := "\x7b\x7bprefix\x7d\x7d"

/-- Identity colour function, `defaultColor` of gologs.go line 40. -/
def defaultColor : String → String := fun s => s

/-! ### A model of `strings.Replace(s, old, new, -1)`

`replAux pat rep s skip` scans `s` left to right.  While `skip > 0` the scanner
is inside an already-matched occurrence and just consumes characters.  At
`skip = 0`, if `pat` starts here the output gets `rep` and the scanner skips
the rest of the match; otherwise the character is copied.  For nonempty `pat`
this is exactly Go's leftmost, non-overlapping, replace-all semantics. -/

/-- Boolean prefix test on character lists. -/
def startsWith : List Char → List Char → Bool
  | [], _ => true
  | _ :: _, [] => false
  | p :: ps, c :: cs => p == c && startsWith ps cs

/-- Scanner for replace-all; `skip` counts characters of a matched occurrence
still to be consumed. -/
def replAux (pat rep : List Char) : List Char → Nat → List Char
  | [], _ => []
  | _ :: cs, Nat.succ k => replAux pat rep cs k
  | c :: cs, 0 =>
    if pat ≠ [] ∧ startsWith pat (c :: cs) then
      rep ++ replAux pat rep cs (pat.length - 1)
    else
      c :: replAux pat rep cs 0

/-- Go `strings.Replace(s, pat, rep, -1)` for nonempty `pat`. -/
def stringsReplace (s pat rep : String) : String :=
  ⟨replAux pat.data rep.data s.data 0⟩

/-- Whether `pat` occurs as a contiguous substring of `s`. -/
def hasOccur (pat : List Char) : List Char → Bool
  | [] => pat.isEmpty
  | c :: cs => startsWith pat (c :: cs) || hasOccur pat cs

/-! ### A model of `fmt.Sprintf` restricted to the `%s` verb

The library passes its format templates (and caller format strings) straight
to `fmt.Sprintf`.  Following Go `fmt`'s documented behaviour, formatting is
total: a verb with no remaining operand renders as `%!<verb>(MISSING)`, a
non-`%s` verb applied to a string renders as `%!<verb>(string=...)`, a bare
trailing `%` renders as `%!(NOVERB)`, and leftover operands are reported by a
trailing `%!(EXTRA string=..., ...)`.  `fmt.Sprintf` never panics on a
malformed format string. -/

/-- Rendering of leftover operands: `%!(EXTRA string=a, string=b)`. -/
def extraArgs : List (List Char) → List Char
  | [] => []
  | [a] => "string=".data ++ a
  | a :: rest => "string=".data ++ a ++ ", ".data ++ extraArgs rest

/-- Character-level `fmt.Sprintf` over string operands. -/
def sprintfAux : List Char → List (List Char) → List Char
  | [], [] => []
  | [], a :: rest => "%!(EXTRA ".data ++ extraArgs (a :: rest) ++ ")".data
  | '%' :: '%' :: rest, args => '%' :: sprintfAux rest args
  | '%' :: 's' :: rest, a :: args => a ++ sprintfAux rest args
  | '%' :: c :: rest, a :: args =>
    "%!".data ++ [c] ++ "(string=".data ++ a ++ ")".data ++ sprintfAux rest args
  | '%' :: c :: rest, [] => "%!".data ++ [c] ++ "(MISSING)".data ++ sprintfAux rest []
  | ['%'], _ => "%!(NOVERB)".data
  | c :: rest, args => c :: sprintfAux rest args

/-- `fmt.Sprintf(format, args...)` over string operands. -/
def sprintf (format : String) (args : List String) : String :=
  ⟨sprintfAux format.data (args.map String.data)⟩

/-- `fmt.Sprintln(args...)`: operands separated by spaces, newline appended. -/
def sprintln (args : List String) : String :=
  String.intercalate " " args ++ "\n"

/-- Environment standing for `os.OpenFile`: maps a path and flag set to an
opened handle or an error message. -/
def FileEnv := String → OpenFlags → Except String Writer

/-- Go method `(l LogLevel) Name()`. -/
def LogLevel.Name (g : Globals) (l : LogLevel) : String :=
  match g.Levels l with
  | some name => name
  | none => toString l

/-- Go method `(l LogLevel) Formatter()` (consults only the global map; note
that the emission path `Logger.Format` does not call this method). -/
def LogLevel.Formatter (g : Globals) (l : LogLevel) : String :=
  match g.DefaultFormatterMap l with
  | some formatter => formatter
  | none => "[" ++ LogLevel.Name g l ++ "] %s"

/-- Go method `(l LogLevel) Color()`. -/
def LogLevel.Color (g : Globals) (l : LogLevel) : String → String :=
  match g.DefaultColorMap l with
  | some f => f
  | none => defaultColor

/-- Go `AddLevel(level, name, opts...)`: the variadic `opts` (a format string
and/or a colour function, dispatched by runtime type) are modelled as two
`Option` arguments. -/
def AddLevel (g : Globals) (level : LogLevel) (name : String)
    (fmtOpt : Option String) (colorOpt : Option (String → String)) : Globals :=
  let g1 : Globals := { g with Levels := fun l => if l = level then some name else g.Levels l }
  let g2 : Globals :=
    match fmtOpt with
    | some f =>
      { g1 with DefaultFormatterMap := fun l => if l = level then some f else g1.DefaultFormatterMap l }
    | none => g1
  match colorOpt with
  | some c =>
    { g2 with DefaultColorMap := fun l => if l = level then some c else g2.DefaultColorMap l }
  | none => g2

/-- The `Logger` struct (gologs.go lines 138–155); the two mutexes are not
modelled. -/
structure Logger where
  Quiet : Bool
  Clean : Bool
  Level : LogLevel
  Color : Bool
  LogToFile : Bool
  LogFileName : String
  SuffixFunc : Unit → String
  PrefixFunc : Unit → String
  logFile : Option Writer
  writer : Writer
  levels : LogLevel → Option String
  formatter : LogLevel → Option String
  colorMap : LogLevel → Option (String → String)

/-- `NewLogger(level)`; `now` stands for the clock read by `getCurtime`.
Fields omitted from the Go struct literal get their zero values. -/
def NewLogger (g : Globals) (now : Unit → String) (level : LogLevel) : Logger :=
  { Quiet := false
    Clean := false
    Level := level
    Color := false
    LogToFile := false
    LogFileName := ""
    SuffixFunc := fun _ => ", " ++ now ()
    PrefixFunc := fun _ => ""
    logFile := none
    writer := osStdout
    levels := g.Levels
    formatter := g.DefaultFormatterMap
    colorMap := g.DefaultColorMap }

/-- Flags of the `os.OpenFile` call in `NewFileLogger`:
`os.O_RDWR | os.O_CREATE`. -/
def newFileLoggerFlags : OpenFlags :=
  { read := true, write := true, create := true, append := false, trunc := false }

/-- Flags of the `os.OpenFile` call in `InitLogFile`:
`os.O_CREATE | os.O_WRONLY | os.O_APPEND`. -/
def initLogFileFlags : OpenFlags :=
  { read := false, write := true, create := true, append := true, trunc := false }

/-- `NewFileLogger(filename)`: on open failure returns the error and no
logger; on success the opened file is the logger's primary writer.  Fields
omitted from the Go struct literal get their zero values (in particular
`Color` is `false`; the instance colour map is the `nil` map). -/
def NewFileLogger (openF : FileEnv) (g : Globals) (now : Unit → String)
    (filename : String) : Except String Logger :=
  match openF filename newFileLoggerFlags with
  | Except.error e => Except.error e
  | Except.ok file =>
    Except.ok
      { Quiet := false
        Clean := false
        Level := Warn
        Color := false
        LogToFile := false
        LogFileName := ""
        SuffixFunc := fun _ => ", " ++ now ()
        PrefixFunc := fun _ => ""
        logFile := none
        writer := file
        levels := g.Levels
        formatter := g.DefaultFormatterMap
        colorMap := fun _ => none }

def Logger.SetQuiet (log : Logger) (q : Bool) : Logger :=
  { log with Quiet := q }

def Logger.SetClean (log : Logger) (c : Bool) : Logger :=
  { log with Clean := c }

def Logger.SetColor (log : Logger) (c : Bool) : Logger :=
  { log with Color := c }

/-- `InitLogFile()`: closes any open handle, then opens the configured path;
on failure prints a diagnostic and leaves the handle `nil` (the `file` local
is `nil` exactly when `err != nil`).  Returns the updated logger and the
printed diagnostics. -/
def Logger.InitLogFile (openF : FileEnv) (log : Logger) : Logger × List String :=
  match openF log.LogFileName initLogFileFlags with
  | Except.error _ => ({ log with logFile := none }, ["Error: Set log file is error"])
  | Except.ok file => ({ log with logFile := some file }, [])

/-- `SetIsLogToFile(l)`: sets the flag; `true` triggers `InitLogFile`,
`false` closes and releases any open handle. -/
def Logger.SetIsLogToFile (log : Logger) (openF : FileEnv) (l : Bool) : Logger × List String :=
  let log1 : Logger := { log with LogToFile := l }
  if log1.LogToFile then
    log1.InitLogFile openF
  else
    ({ log1 with logFile := none }, [])

def Logger.SetColorMap (log : Logger) (cm : LogLevel → Option (String → String)) : Logger :=
  { log with colorMap := cm }

def Logger.SetLevel (log : Logger) (l : LogLevel) : Logger :=
  { log with Level := l }

def Logger.SetOutput (log : Logger) (w : Writer) : Logger :=
  { log with writer := w }

def Logger.SetFile (log : Logger) (filename : String) : Logger :=
  { log with LogFileName := filename }

def Logger.SetFormatter (log : Logger) (formatter : LogLevel → Option String) : Logger :=
  { log with formatter := formatter }

/-- `Console(s)`: direct passthrough, gated only by `Clean`; result is the
list of console writes performed. -/
def Logger.Console (log : Logger) (s : String) : List (Writer × String) :=
  if log.Clean then [] else [(log.writer, s)]

/-- `Consolef(format, s...)`. -/
def Logger.Consolef (log : Logger) (format : String) (s : List String) : List (Writer × String) :=
  if log.Clean then [] else [(log.writer, sprintf format s)]

/-- `FConsolef(writer, format, s...)`. -/
def Logger.FConsolef (log : Logger) (w : Writer) (format : String) (s : List String) :
    List (Writer × String) :=
  if log.Clean then [] else [(w, sprintf format s)]

/-- `SetLevelColor(level, line)`: instance colour map, else global default
map, else the line unchanged. -/
def Logger.SetLevelColor (g : Globals) (log : Logger) (level : LogLevel) (line : String) : String :=
  match log.colorMap level with
  | some c => c line
  | none =>
    match g.DefaultColorMap level with
    | some c => c line
    | none => line

/-- `Format(level, s...)`: resolve the template (instance map, else global
map, else the inline fallback `"[%s] %s "` applied to the level name and the
operands), then globally replace the suffix and prefix tokens with the
producers' fresh outputs. -/
def Logger.Format (g : Globals) (log : Logger) (level : LogLevel) (s : List String) : String :=
  let line :=
    match log.formatter level with
    | some f => sprintf f s
    | none =>
      match g.DefaultFormatterMap level with
      | some f => sprintf f s
      | none => sprintf "[%s] %s " (LogLevel.Name g level :: s)
  let line1 := stringsReplace line suffTok (log.SuffixFunc ())
  stringsReplace line1 prefTok (log.PrefixFunc ())

/-- Observable output of one emission call. -/
structure Emission where
  console : List (Writer × String)
  fileOut : List String
  diag : List String
deriving DecidableEq, Repr

/-- The empty emission: nothing written anywhere. -/
def emptyEmission : Emission := ⟨[], [], []⟩

/-- `writeToFile(line)`: returns (file writes, diagnostics).  A `nil` handle
prints a diagnostic and skips; the write itself is modelled as succeeding. -/
def Logger.writeToFile (log : Logger) (line : String) : List String × List String :=
  match log.logFile with
  | none => ([], ["Error: Log file is not initialized."])
  | some _ => ([line], [])

/-- `logInterface(writer, level, s)` (gologs.go lines 233–249). -/
def Logger.logInterface (g : Globals) (log : Logger) (w : Writer) (level : LogLevel)
    (s : String) : Emission :=
  if log.Quiet = false ∧ log.Level ≤ level then
    let line := log.Format g level [s]
    let consoleLine := if log.Color then log.SetLevelColor g level line else line
    let fd := if log.LogToFile then log.writeToFile line else ([], [])
    { console := [(w, consoleLine)], fileOut := fd.1, diag := fd.2 }
  else
    emptyEmission

/-- `logInterfacef(writer, level, format, s...)` (gologs.go lines 251–267). -/
def Logger.logInterfacef (g : Globals) (log : Logger) (w : Writer) (level : LogLevel)
    (format : String) (s : List String) : Emission :=
  if log.Quiet = false ∧ log.Level ≤ level then
    let line := log.Format g level [sprintf format s]
    let consoleLine := if log.Color then log.SetLevelColor g level line else line
    let fd := if log.LogToFile then log.writeToFile line else ([], [])
    { console := [(w, consoleLine)], fileOut := fd.1, diag := fd.2 }
  else
    emptyEmission

def Logger.Log (g : Globals) (log : Logger) (level : LogLevel) (s : String) : Emission :=
  log.logInterface g log.writer level s

def Logger.Logf (g : Globals) (log : Logger) (level : LogLevel) (format : String)
    (s : List String) : Emission :=
  log.logInterfacef g log.writer level format s

def Logger.FLogf (g : Globals) (log : Logger) (w : Writer) (level : LogLevel)
    (s : List String) : Emission :=
  log.logInterface g w level (sprintln s)

def Logger.Important (g : Globals) (log : Logger) (s : String) : Emission :=
  log.logInterface g log.writer Gologs.Important s

def Logger.Importantf (g : Globals) (log : Logger) (format : String) (s : List String) : Emission :=
  log.logInterfacef g log.writer Gologs.Important format s

def Logger.FImportantf (g : Globals) (log : Logger) (w : Writer) (format : String)
    (s : List String) : Emission :=
  log.logInterfacef g w Gologs.Important format s

def Logger.Info (g : Globals) (log : Logger) (s : String) : Emission :=
  log.logInterface g log.writer Gologs.Info s

def Logger.Infof (g : Globals) (log : Logger) (format : String) (s : List String) : Emission :=
  log.logInterfacef g log.writer Gologs.Info format s

def Logger.Hint (g : Globals) (log : Logger) (s : String) : Emission :=
  log.logInterface g log.writer Gologs.Hint s

def Logger.Hintf (g : Globals) (log : Logger) (format : String) (s : List String) : Emission :=
  log.logInterfacef g log.writer Gologs.Hint format s

def Logger.FInfof (g : Globals) (log : Logger) (w : Writer) (format : String)
    (s : List String) : Emission :=
  log.logInterfacef g w Gologs.Info format s

def Logger.Error (g : Globals) (log : Logger) (s : String) : Emission :=
  log.logInterface g log.writer Gologs.Error s

def Logger.Errorf (g : Globals) (log : Logger) (format : String) (s : List String) : Emission :=
  log.logInterfacef g log.writer Gologs.Error format s

def Logger.FErrorf (g : Globals) (log : Logger) (w : Writer) (format : String)
    (s : List String) : Emission :=
  log.logInterfacef g w Gologs.Error format s

def Logger.Warn (g : Globals) (log : Logger) (s : String) : Emission :=
  log.logInterface g log.writer Gologs.Warn s

def Logger.Warnf (g : Globals) (log : Logger) (format : String) (s : List String) : Emission :=
  log.logInterfacef g log.writer Gologs.Warn format s

def Logger.FWarnf (g : Globals) (log : Logger) (w : Writer) (format : String)
    (s : List String) : Emission :=
  log.logInterfacef g w Gologs.Warn format s

def Logger.Debug (g : Globals) (log : Logger) (s : String) : Emission :=
  log.logInterface g log.writer Gologs.Debug s

def Logger.Debugf (g : Globals) (log : Logger) (format : String) (s : List String) : Emission :=
  log.logInterfacef g log.writer Gologs.Debug format s

def Logger.FDebugf (g : Globals) (log : Logger) (w : Writer) (format : String)
    (s : List String) : Emission :=
  log.logInterfacef g w Gologs.Debug format s

/-! ### Lemmas about the replace-all scanner -/

theorem startsWith_self_append (p b : List Char) : startsWith p (p ++ b) = true := by
  induction p with
  | nil => rfl
  | cons c cs ih => simp [startsWith, ih]

/-- While the skip counter equals the length of `x`, the scanner consumes
exactly `x` and emits nothing. -/
theorem replAux_skip (pat rep : List Char) (x b : List Char) :
    replAux pat rep (x ++ b) x.length = replAux pat rep b 0 := by
  induction x with
  | nil => rfl
  | cons c cs ih => simpa [replAux] using ih

/-- If the pattern occurs nowhere in `s`, replace-all leaves `s` unchanged. -/
theorem replAux_no_occur (pat rep : List Char) (s : List Char)
    (h : hasOccur pat s = false) : replAux pat rep s 0 = s := by
  induction s with
  | nil => rfl
  | cons c cs ih =>
    simp only [hasOccur, Bool.or_eq_false_iff] at h
    simp [replAux, h.1, ih h.2]

/-- Replace-all rewrites an explicit occurrence: if no occurrence of `pat`
starts strictly inside `a`, then scanning `a ++ pat ++ b` copies `a`, replaces
this occurrence of `pat`, and continues on `b`. -/
theorem replAux_append_occur (pat rep : List Char) (hp : pat ≠ []) (a b : List Char)
    (h : ∀ i, i < a.length → startsWith pat ((a ++ pat ++ b).drop i) = false) :
    replAux pat rep (a ++ pat ++ b) 0 = a ++ rep ++ replAux pat rep b 0 := by
  induction a with
  | nil =>
    cases pat with
    | nil => exact absurd rfl hp
    | cons q qs =>
      have hsw : startsWith (q :: qs) (q :: (qs ++ b)) = true :=
        startsWith_self_append (q :: qs) b
      show replAux (q :: qs) rep (q :: (qs ++ b)) 0 = [] ++ rep ++ replAux (q :: qs) rep b 0
      rw [replAux, if_pos ⟨List.cons_ne_nil q qs, hsw⟩]
      have hskip : replAux (q :: qs) rep (qs ++ b) ((q :: qs).length - 1) =
          replAux (q :: qs) rep b 0 := by
        simpa using replAux_skip (q :: qs) rep qs b
      rw [hskip]
      simp
  | cons c cs ih =>
    have h0 : startsWith pat (c :: (cs ++ pat ++ b)) = false := by
      simpa using h 0 (by simp)
    have h0a : startsWith pat (c :: (cs ++ (pat ++ b))) = false := by
      simpa [List.append_assoc] using h0
    show replAux pat rep (c :: (cs ++ pat ++ b)) 0 = (c :: cs) ++ rep ++ replAux pat rep b 0
    rw [replAux, if_neg (fun hc => by simp [h0a] at hc)]
    have := ih (fun i hi => by simpa using h (i + 1) (by simpa))
    rw [this]
    simp

theorem startsWith_append_right (p s y : List Char) (h : startsWith p s = true) :
    startsWith p (s ++ y) = true := by
  induction p generalizing s with
  | nil => rfl
  | cons q qs ih =>
    cases s with
    | nil => simp [startsWith] at h
    | cons c cs =>
      simp only [startsWith, Bool.and_eq_true] at h
      simpa [startsWith, h.1] using ih cs h.2

theorem hasOccur_append_left (pat p y : List Char) (h : hasOccur pat p = true) :
    hasOccur pat (p ++ y) = true := by
  induction p with
  | nil =>
    simp only [hasOccur, List.isEmpty_iff] at h
    subst h
    cases y with
    | nil => rfl
    | cons c cs => simp [hasOccur, startsWith]
  | cons c cs ih =>
    simp only [hasOccur, Bool.or_eq_true] at h
    rcases h with h | h
    · simpa [hasOccur] using Or.inl (startsWith_append_right pat (c :: cs) y h)
    · simpa [hasOccur] using Or.inr (ih h)

theorem hasOccur_append_right (pat x p : List Char) (h : hasOccur pat p = true) :
    hasOccur pat (x ++ p) = true := by
  induction x with
  | nil => simpa using h
  | cons c cs ih => simpa [hasOccur] using Or.inr ih

/-- String-level corollary: replacing a pattern that does not occur is the
identity. -/
theorem stringsReplace_no_occur (s pat rep : String)
    (h : hasOccur pat.data s.data = false) : stringsReplace s pat rep = s := by
  unfold stringsReplace
  rw [replAux_no_occur pat.data rep.data s.data h]

/-! ### Concrete fixtures used by witnesses and counterexamples -/

/-- Package state at init: the three registries as `gologs.go` declares them
(the colour map is irrelevant to the claims settled on it and kept empty). -/
def sampleGlobals : Globals :=
  { Levels := initLevels
    DefaultFormatterMap := initFormatterMap
    DefaultColorMap := fun _ => none }

/-- A fixed clock reading for `getCurtime`. -/
def sampleNow : Unit → String := fun _ => "2024-01-01 00:00.00"

/-- `NewLogger(Warn)`, the library's default console logger. -/
def sampleLogger : Logger := NewLogger sampleGlobals sampleNow Warn

/-! ### Claim theorems -/

/-- C1: for every leveled logging call (`Log`, `Logf`, the level-named
convenience methods and their `f`-suffixed and `F`-prefixed variants), a log
line is written only if the quiet flag is false and the call's level is at
least the logger's minimum level: when quiet is set or the level is below the
minimum, `logInterface`/`logInterfacef` produce the empty emission (no console
write, no file write, no diagnostic), and every leveled method is exactly a
`logInterface`/`logInterfacef` call, so it writes nothing either. -/
theorem c1_guard_suppresses_all_output (g : Globals) (log : Logger) (w : Writer)
    (level : LogLevel) (s format : String) (args : List String)
    (h : log.Quiet = true ∨ level < log.Level) :
    log.logInterface g w level s = emptyEmission
    ∧ log.logInterfacef g w level format args = emptyEmission
    ∧ log.Log g level s = log.logInterface g log.writer level s
    ∧ log.Logf g level format args = log.logInterfacef g log.writer level format args
    ∧ log.FLogf g w level args = log.logInterface g w level (sprintln args)
    ∧ log.Important g s = log.logInterface g log.writer Gologs.Important s
    ∧ log.Importantf g format args = log.logInterfacef g log.writer Gologs.Important format args
    ∧ log.FImportantf g w format args = log.logInterfacef g w Gologs.Important format args
    ∧ log.Info g s = log.logInterface g log.writer Gologs.Info s
    ∧ log.Infof g format args = log.logInterfacef g log.writer Gologs.Info format args
    ∧ log.FInfof g w format args = log.logInterfacef g w Gologs.Info format args
    ∧ log.Hint g s = log.logInterface g log.writer Gologs.Hint s
    ∧ log.Hintf g format args = log.logInterfacef g log.writer Gologs.Hint format args
    ∧ log.Error g s = log.logInterface g log.writer Gologs.Error s
    ∧ log.Errorf g format args = log.logInterfacef g log.writer Gologs.Error format args
    ∧ log.FErrorf g w format args = log.logInterfacef g w Gologs.Error format args
    ∧ log.Warn g s = log.logInterface g log.writer Gologs.Warn s
    ∧ log.Warnf g format args = log.logInterfacef g log.writer Gologs.Warn format args
    ∧ log.FWarnf g w format args = log.logInterfacef g w Gologs.Warn format args
    ∧ log.Debug g s = log.logInterface g log.writer Gologs.Debug s
    ∧ log.Debugf g format args = log.logInterfacef g log.writer Gologs.Debug format args
    ∧ log.FDebugf g w format args = log.logInterfacef g w Gologs.Debug format args := by
  have hg : ¬ (log.Quiet = false ∧ log.Level ≤ level) := by
    rcases h with h | h
    · intro hc
      rw [h] at hc
      exact absurd hc.1 (by simp)
    · intro hc
      exact absurd hc.2 (not_le.mpr h)
  refine ⟨?_, ?_, rfl, rfl, rfl, rfl, rfl, rfl, rfl, rfl, rfl, rfl, rfl, rfl, rfl, rfl,
    rfl, rfl, rfl, rfl, rfl, rfl⟩
  · rw [Logger.logInterface, if_neg hg]
  · rw [Logger.logInterfacef, if_neg hg]

/-- Witness for C1: the default `Warn`-level logger suppresses a `Debug`-level
call entirely. -/
theorem c1_guard_suppresses_all_output_witness :
    Logger.logInterface sampleGlobals sampleLogger osStdout Gologs.Debug "x" = emptyEmission :=
  (c1_guard_suppresses_all_output sampleGlobals sampleLogger osStdout Gologs.Debug
    "x" "%s" ["x"] (Or.inr (by decide))).1

/-- C2 counterexample: with `Clean` set (and quiet unset, level at the
minimum), the claim says the console write of the rendered line is skipped;
in the code `logInterface` never consults `Clean`, and the rendered line is
written to the target writer anyway. -/
theorem c2_clean_counterexample :
    (sampleLogger.SetClean true).Clean = true
    ∧ ((sampleLogger.SetClean true).logInterface sampleGlobals osStdout Gologs.Warn "x").console
        = [(osStdout, "[Warn] x \n")] := by
  decide

/-- C2 (amended): the `Clean` flag has no effect on leveled emissions — both
`logInterface` and `logInterfacef` produce identical output (console write
included, file write included) for any value of `Clean`; `Clean` gates only
the plain passthrough methods `Console`/`Consolef`/`FConsolef`. -/
theorem c2_clean_gates_only_console_passthrough (g : Globals) (log : Logger) (w : Writer)
    (level : LogLevel) (s format : String) (args : List String) (c : Bool) :
    (log.SetClean c).logInterface g w level s = log.logInterface g w level s
    ∧ (log.SetClean c).logInterfacef g w level format args
        = log.logInterfacef g w level format args
    ∧ (log.SetClean true).Console s = []
    ∧ (log.SetClean false).Console s = [(log.writer, s)]
    ∧ (log.SetClean true).Consolef format args = []
    ∧ (log.SetClean false).Consolef format args = [(log.writer, sprintf format args)]
    ∧ (log.SetClean true).FConsolef w format args = []
    ∧ (log.SetClean false).FConsolef w format args = [(w, sprintf format args)] :=
  ⟨rfl, rfl, rfl, rfl, rfl, rfl, rfl, rfl⟩

/-- C3: when colour is enabled and the guard passes, the console write is the
resolved colour function applied to the entire rendered line (instance
override for the level, else global default, else identity), while the file
sink — when log-to-file is enabled and a handle is open — receives exactly the
uncoloured pre-colour rendered line. -/
theorem c3_color_wraps_line_file_uncolored (g : Globals) (log : Logger) (w : Writer)
    (level : LogLevel) (s : String)
    (hq : log.Quiet = false) (hl : log.Level ≤ level) (hc : log.Color = true) :
    (log.logInterface g w level s).console
        = [(w, log.SetLevelColor g level (log.Format g level [s]))]
    ∧ (∀ c, log.colorMap level = some c →
        log.SetLevelColor g level (log.Format g level [s]) = c (log.Format g level [s]))
    ∧ (log.colorMap level = none → ∀ c, g.DefaultColorMap level = some c →
        log.SetLevelColor g level (log.Format g level [s]) = c (log.Format g level [s]))
    ∧ (log.colorMap level = none → g.DefaultColorMap level = none →
        log.SetLevelColor g level (log.Format g level [s]) = log.Format g level [s])
    ∧ (log.LogToFile = true → ∀ f, log.logFile = some f →
        (log.logInterface g w level s).fileOut = [log.Format g level [s]]) := by
  refine ⟨?_, ?_, ?_, ?_, ?_⟩
  · rw [Logger.logInterface, if_pos ⟨hq, hl⟩]
    simp [hc]
  · intro c hin
    rw [Logger.SetLevelColor, hin]
  · intro hin c hdef
    rw [Logger.SetLevelColor, hin, hdef]
  · intro hin hdef
    rw [Logger.SetLevelColor, hin, hdef]
  · intro hfile f hhandle
    rw [Logger.logInterface, if_pos ⟨hq, hl⟩]
    simp [hfile, Logger.writeToFile, hhandle]

/-- Witness for C3: on a colour-enabled default logger whose colour maps are
empty at `Warn`, the console write is the resolved colour of the full line,
which resolves to the identity. -/
theorem c3_color_wraps_line_file_uncolored_witness :
    ((sampleLogger.SetColor true).logInterface sampleGlobals osStdout Gologs.Warn "x").console
        = [(osStdout, Logger.SetLevelColor sampleGlobals (sampleLogger.SetColor true) Gologs.Warn
            (Logger.Format sampleGlobals (sampleLogger.SetColor true) Gologs.Warn ["x"]))]
    ∧ Logger.SetLevelColor sampleGlobals (sampleLogger.SetColor true) Gologs.Warn
          (Logger.Format sampleGlobals (sampleLogger.SetColor true) Gologs.Warn ["x"])
        = Logger.Format sampleGlobals (sampleLogger.SetColor true) Gologs.Warn ["x"] :=
  ⟨(c3_color_wraps_line_file_uncolored sampleGlobals (sampleLogger.SetColor true) osStdout
      Gologs.Warn "x" rfl (by decide) rfl).1,
   (c3_color_wraps_line_file_uncolored sampleGlobals (sampleLogger.SetColor true) osStdout
      Gologs.Warn "x" rfl (by decide) rfl).2.2.2.1 rfl rfl⟩

/-- The globals after the test scenario's `AddLevel(1, "test")`: level 1 is
registered with a name but with no custom formatter and no colour. -/
def testGlobals : Globals := AddLevel sampleGlobals 1 "test" none none

/-- A logger built over `testGlobals` with minimum level 0, below level 1. -/
def testLogger : Logger := NewLogger testGlobals sampleNow 0

/-- C4 counterexample: for level 1 registered with name `test` and no custom
formatter, emission renders with the inline fallback `"[%s] %s "` of
`Logger.Format`, producing `"[test] x "` with a trailing space — not the
claimed synthesized template `"[test] %s"`, which would produce `"[test] x"`. -/
theorem c4_fallback_counterexample :
    Logger.Format testGlobals testLogger 1 ["x"] = "[test] x "
    ∧ Logger.Format testGlobals testLogger 1 ["x"] ≠ "[test] x"
    ∧ (Logger.Log testGlobals testLogger 1 "x").console = [(osStdout, "[test] x ")] := by
  decide

/-- Helper: rendering the inline fallback template `"[%s] %s "` with a name
and one message operand. -/
theorem sprintf_fallback (name s : String) :
    sprintf "[%s] %s " [name, s] = "[" ++ (name ++ ("] " ++ (s ++ " "))) := rfl

/-- C4 (amended): the format template is resolved as instance override, else
global default, else the inline fallback `"[%s] %s "`, so an unregistered
level renders as `"[<name>] <message> "` with a trailing space (followed by
the global token substitutions).  The method `LogLevel.Formatter` does
synthesize `"[<name>] %s"` without the space, but emission never calls it. -/
theorem c4_formatter_resolution (g : Globals) (log : Logger) (level : LogLevel) (s : String)
    (hi : log.formatter level = none) (hg : g.DefaultFormatterMap level = none) :
    log.Format g level [s]
      = stringsReplace (stringsReplace
          ("[" ++ (LogLevel.Name g level ++ ("] " ++ (s ++ " "))))
          suffTok (log.SuffixFunc ())) prefTok (log.PrefixFunc ())
    ∧ LogLevel.Formatter g level = "[" ++ LogLevel.Name g level ++ "] %s" := by
  constructor
  · rw [Logger.Format, hi, hg]
    simp only [sprintf_fallback]
  · rw [LogLevel.Formatter, hg]

/-- Witness for C4 (amended): concrete evaluation at the `test` scenario,
whose rendered line is `"[test] x "`. -/
theorem c4_formatter_resolution_witness :
    Logger.Format testGlobals testLogger 1 ["x"]
      = stringsReplace (stringsReplace
          ("[" ++ (LogLevel.Name testGlobals 1 ++ ("] " ++ ("x" ++ " "))))
          suffTok (testLogger.SuffixFunc ())) prefTok (testLogger.PrefixFunc ())
    ∧ LogLevel.Formatter testGlobals 1 = "[" ++ LogLevel.Name testGlobals 1 ++ "] %s" :=
  c4_formatter_resolution testGlobals testLogger 1 "x" rfl rfl

/-- Helper: rendering the default `Warn` template with one message operand. -/
theorem sprintf_warn_template (m : String) :
    sprintf "[Warn] %s \n" [m] = String.mk ("[Warn] ".data ++ (m.data ++ " \n".data)) := rfl

/-- C5: a message containing the literal suffix token is substituted even
though the token sits inside the caller-supplied message, because token
replacement is a global string replace over the whole rendered line.  For the
default `Warn` template, a message `a ++ "\x7b\x7bsuffix\x7d\x7d" ++ b`
renders with the suffix producer's output in place of the embedded token
(under side conditions saying this is the leftmost occurrence and no other
token occurs). -/
theorem c5_token_in_message_substituted (g : Globals) (log : Logger) (a b : List Char)
    (hf : log.formatter Gologs.Warn = some "[Warn] %s \n")
    (h1 : ∀ i, i < ("[Warn] ".data ++ a).length →
        startsWith suffTok.data
          ((("[Warn] ".data ++ a) ++ suffTok.data ++ (b ++ " \n".data)).drop i) = false)
    (h2 : hasOccur suffTok.data (b ++ " \n".data) = false)
    (h3 : hasOccur prefTok.data
        ("[Warn] ".data ++ (a ++ ((log.SuffixFunc ()).data ++ (b ++ " \n".data)))) = false) :
    log.Format g Gologs.Warn [String.mk (a ++ suffTok.data ++ b)]
      = String.mk ("[Warn] ".data ++ (a ++ ((log.SuffixFunc ()).data ++ (b ++ " \n".data)))) := by
  have hp : suffTok.data ≠ [] := by decide
  have hinner : stringsReplace (String.mk (("[Warn] ".data ++ a) ++ suffTok.data ++ (b ++ " \n".data)))
      suffTok (log.SuffixFunc ())
      = String.mk ("[Warn] ".data ++ (a ++ ((log.SuffixFunc ()).data ++ (b ++ " \n".data)))) := by
    unfold stringsReplace
    apply congrArg String.mk
    rw [show (String.mk (("[Warn] ".data ++ a) ++ suffTok.data ++ (b ++ " \n".data))).data
        = ("[Warn] ".data ++ a) ++ suffTok.data ++ (b ++ " \n".data) from rfl]
    rw [replAux_append_occur suffTok.data (log.SuffixFunc ()).data hp
      ("[Warn] ".data ++ a) (b ++ " \n".data) h1]
    rw [replAux_no_occur _ _ _ h2]
    simp [List.append_assoc]
  have hline : sprintf "[Warn] %s \n" [String.mk (a ++ suffTok.data ++ b)]
      = String.mk (("[Warn] ".data ++ a) ++ suffTok.data ++ (b ++ " \n".data)) := by
    rw [sprintf_warn_template]
    apply congrArg String.mk
    simp [List.append_assoc]
  simp only [Logger.Format, hf]
  rw [hline, hinner]
  exact stringsReplace_no_occur _ _ _ h3

/-- Witness for C5: with suffix producer output `"S"`, the message
`"a\x7b\x7bsuffix\x7d\x7db"` at `Warn` renders as `"[Warn] aSb \n"`. -/
theorem c5_token_in_message_substituted_witness :
    Logger.Format sampleGlobals { sampleLogger with SuffixFunc := fun _ => "S" } Gologs.Warn
        [String.mk ("a".data ++ suffTok.data ++ "b".data)]
      = String.mk ("[Warn] ".data ++ ("a".data ++
          (({ sampleLogger with SuffixFunc := fun _ => "S" : Logger }.SuffixFunc ()).data ++
            ("b".data ++ " \n".data)))) :=
  c5_token_in_message_substituted sampleGlobals
    { sampleLogger with SuffixFunc := fun _ => "S" } "a".data "b".data rfl
    (by decide) (by decide) (by decide)

/-- C6: if `SetIsLogToFile(true)` is called while the configured path does not
open (for instance no path was ever configured), the log-to-file flag is still
set to `true`, a diagnostic is printed, and the file handle is left `nil`;
every subsequent leveled emission that passes the guard then skips the file
sink and prints the not-initialized diagnostic instead of crashing, while the
console write still happens. -/
theorem c6_logtofile_without_valid_path (g : Globals) (log : Logger) (openF : FileEnv)
    (w : Writer) (level : LogLevel) (s e : String)
    (hopen : openF log.LogFileName initLogFileFlags = Except.error e) :
    (log.SetIsLogToFile openF true).1.LogToFile = true
    ∧ (log.SetIsLogToFile openF true).1.logFile = none
    ∧ (log.SetIsLogToFile openF true).2 = ["Error: Set log file is error"]
    ∧ ((log.SetIsLogToFile openF true).1.Quiet = false → (log.SetIsLogToFile openF true).1.Level ≤ level →
        ((log.SetIsLogToFile openF true).1.logInterface g w level s).fileOut = []
        ∧ ((log.SetIsLogToFile openF true).1.logInterface g w level s).diag
            = ["Error: Log file is not initialized."]
        ∧ ((log.SetIsLogToFile openF true).1.logInterface g w level s).console
            = [(w, if (log.SetIsLogToFile openF true).1.Color then
                  (log.SetIsLogToFile openF true).1.SetLevelColor g level
                    ((log.SetIsLogToFile openF true).1.Format g level [s])
                else (log.SetIsLogToFile openF true).1.Format g level [s])]) := by
  have hset : log.SetIsLogToFile openF true
      = ({ log with LogToFile := true, logFile := none }, ["Error: Set log file is error"]) := by
    rw [Logger.SetIsLogToFile]
    simp only [if_pos rfl]
    rw [Logger.InitLogFile]
    rw [show ({ log with LogToFile := true } : Logger).LogFileName = log.LogFileName from rfl, hopen]
    rfl
  refine ⟨by rw [hset], by rw [hset], by rw [hset], ?_⟩
  intro hq hl
  rw [hset] at hq hl ⊢
  refine ⟨?_, ?_, ?_⟩ <;>
    (rw [Logger.logInterface, if_pos ⟨hq, hl⟩] <;> try simp [Logger.writeToFile])

/-- Witness for C6: enabling file logging on the default logger (whose
configured path is empty and fails to open) marks the flag, nils the handle,
and a `Warn` emission afterwards skips the file sink with the diagnostic. -/
theorem c6_logtofile_without_valid_path_witness :
    (sampleLogger.SetIsLogToFile (fun _ _ => Except.error "open failed") true).1.LogToFile = true
    ∧ (sampleLogger.SetIsLogToFile (fun _ _ => Except.error "open failed") true).1.logFile = none
    ∧ ((sampleLogger.SetIsLogToFile (fun _ _ => Except.error "open failed") true).1.logInterface
          sampleGlobals osStdout Gologs.Warn "x").fileOut = []
    ∧ ((sampleLogger.SetIsLogToFile (fun _ _ => Except.error "open failed") true).1.logInterface
          sampleGlobals osStdout Gologs.Warn "x").diag = ["Error: Log file is not initialized."] := by
  have h := c6_logtofile_without_valid_path sampleGlobals sampleLogger
    (fun _ _ => Except.error "open failed") osStdout Gologs.Warn "x" "open failed" rfl
  exact ⟨h.1, h.2.1, (h.2.2.2 rfl (by decide)).1, (h.2.2.2 rfl (by decide)).2.1⟩

/-- C7: `NewFileLogger(path)` opens the file for read/write with create and
without truncation; on open failure it returns the error and no logger; on
success the logger's minimum level is `Warn`, colour is disabled, and the
opened file is its primary writer. -/
theorem c7_new_file_logger (openF : FileEnv) (g : Globals) (now : Unit → String)
    (path : String) :
    newFileLoggerFlags.read = true
    ∧ newFileLoggerFlags.write = true
    ∧ newFileLoggerFlags.create = true
    ∧ newFileLoggerFlags.trunc = false
    ∧ (∀ e, openF path newFileLoggerFlags = Except.error e →
        NewFileLogger openF g now path = Except.error e)
    ∧ (∀ f, openF path newFileLoggerFlags = Except.ok f →
        ∃ log, NewFileLogger openF g now path = Except.ok log
          ∧ log.Level = Warn ∧ log.Color = false ∧ log.writer = f) := by
  refine ⟨rfl, rfl, rfl, rfl, ?_, ?_⟩
  · intro e h
    rw [NewFileLogger, h]
  · intro f h
    rw [NewFileLogger, h]
    exact ⟨_, rfl, rfl, rfl, rfl⟩

/-- Witness for C7: a failing open propagates its error; a succeeding open
yields a `Warn`-level colour-free logger writing to the opened handle. -/
theorem c7_new_file_logger_witness :
    NewFileLogger (fun _ _ => Except.error "no such dir") sampleGlobals sampleNow "p"
        = Except.error "no such dir"
    ∧ ∃ log, NewFileLogger (fun _ _ => Except.ok ⟨7⟩) sampleGlobals sampleNow "p"
        = Except.ok log ∧ log.Level = Warn ∧ log.Color = false ∧ log.writer = ⟨7⟩ :=
  ⟨(c7_new_file_logger (fun _ _ => Except.error "no such dir") sampleGlobals sampleNow
      "p").2.2.2.2.1 "no such dir" rfl,
   (c7_new_file_logger (fun _ _ => Except.ok ⟨7⟩) sampleGlobals sampleNow
      "p").2.2.2.2.2 ⟨7⟩ rfl⟩

/-- A logger whose instance formatter map installs the malformed template
`"%s %s"` (two placeholders) for the `Error` level. -/
def malformedLogger : Logger :=
  sampleLogger.SetFormatter
    (fun l => if l = Gologs.Error then some "%s %s" else initFormatterMap l)

/-- C8 counterexample: rendering a one-operand message through the malformed
two-placeholder template does not crash: following Go `fmt`'s documented
behaviour, the missing operand renders as the inline annotation
`%!s(MISSING)` and the emission completes normally with that line. -/
theorem c8_malformed_format_counterexample :
    Logger.Format sampleGlobals malformedLogger Gologs.Error ["x"] = "x %!s(MISSING)"
    ∧ (Logger.Error sampleGlobals malformedLogger "x").console
        = [(osStdout, "x %!s(MISSING)")]
    ∧ (Logger.Error sampleGlobals malformedLogger "x").diag = [] := by
  decide

/-- Helper: rendering the malformed template `"%s %s"` with one operand. -/
theorem sprintf_malformed_template (s : String) :
    sprintf "%s %s" [s] = s ++ " %!s(MISSING)" := rfl

/-- C8 (amended): a malformed custom format string is indeed passed to string
formatting with no validation, but rendering does not panic: with template
`"%s %s"` and one operand the rendered line is the message followed by the
inline annotation `" %!s(MISSING)"` (Go `fmt` reports verb/operand mismatches
in-band and never crashes). -/
theorem c8_malformed_format_total_render (g : Globals) (log : Logger)
    (level : LogLevel) (s : String)
    (hf : log.formatter level = some "%s %s")
    (h1 : hasOccur suffTok.data (s ++ " %!s(MISSING)").data = false)
    (h2 : hasOccur prefTok.data (s ++ " %!s(MISSING)").data = false) :
    log.Format g level [s] = s ++ " %!s(MISSING)" := by
  simp only [Logger.Format, hf, sprintf_malformed_template]
  rw [stringsReplace_no_occur _ _ _ h1, stringsReplace_no_occur _ _ _ h2]

/-- Witness for C8 (amended): concrete rendering of `"x"` through the
malformed template. -/
theorem c8_malformed_format_total_render_witness :
    Logger.Format sampleGlobals malformedLogger Gologs.Error ["x"] = "x %!s(MISSING)" :=
  c8_malformed_format_total_render sampleGlobals malformedLogger Gologs.Error "x"
    rfl (by decide) (by decide)

/-- C9: each plain configuration setter mutates exactly its named field and
leaves every other `Logger` field unchanged; `SetIsLogToFile` alone has an
extra effect — with `false` it clears the flag and releases the handle with no
diagnostic, and with `true` it sets the flag and (re)initializes the file,
ending with an open handle on success or a `nil` handle plus a printed
diagnostic on failure, all other fields untouched. -/
theorem c9_setters_mutate_one_field (log : Logger) (openF : FileEnv) (q c col : Bool)
    (l : LogLevel) (w : Writer) (filename : String)
    (fm : LogLevel → Option String) (cm : LogLevel → Option (String → String)) :
    ((log.SetQuiet q).Quiet = q ∧ (log.SetQuiet q).Clean = log.Clean
      ∧ (log.SetQuiet q).Level = log.Level ∧ (log.SetQuiet q).Color = log.Color
      ∧ (log.SetQuiet q).LogToFile = log.LogToFile
      ∧ (log.SetQuiet q).LogFileName = log.LogFileName
      ∧ (log.SetQuiet q).SuffixFunc = log.SuffixFunc
      ∧ (log.SetQuiet q).PrefixFunc = log.PrefixFunc
      ∧ (log.SetQuiet q).logFile = log.logFile ∧ (log.SetQuiet q).writer = log.writer
      ∧ (log.SetQuiet q).levels = log.levels ∧ (log.SetQuiet q).formatter = log.formatter
      ∧ (log.SetQuiet q).colorMap = log.colorMap)
    ∧ ((log.SetClean c).Clean = c ∧ (log.SetClean c).Quiet = log.Quiet
      ∧ (log.SetClean c).Level = log.Level ∧ (log.SetClean c).Color = log.Color
      ∧ (log.SetClean c).LogToFile = log.LogToFile
      ∧ (log.SetClean c).LogFileName = log.LogFileName
      ∧ (log.SetClean c).SuffixFunc = log.SuffixFunc
      ∧ (log.SetClean c).PrefixFunc = log.PrefixFunc
      ∧ (log.SetClean c).logFile = log.logFile ∧ (log.SetClean c).writer = log.writer
      ∧ (log.SetClean c).levels = log.levels ∧ (log.SetClean c).formatter = log.formatter
      ∧ (log.SetClean c).colorMap = log.colorMap)
    ∧ ((log.SetColor col).Color = col ∧ (log.SetColor col).Quiet = log.Quiet
      ∧ (log.SetColor col).Clean = log.Clean ∧ (log.SetColor col).Level = log.Level
      ∧ (log.SetColor col).LogToFile = log.LogToFile
      ∧ (log.SetColor col).LogFileName = log.LogFileName
      ∧ (log.SetColor col).SuffixFunc = log.SuffixFunc
      ∧ (log.SetColor col).PrefixFunc = log.PrefixFunc
      ∧ (log.SetColor col).logFile = log.logFile ∧ (log.SetColor col).writer = log.writer
      ∧ (log.SetColor col).levels = log.levels ∧ (log.SetColor col).formatter = log.formatter
      ∧ (log.SetColor col).colorMap = log.colorMap)
    ∧ ((log.SetLevel l).Level = l ∧ (log.SetLevel l).Quiet = log.Quiet
      ∧ (log.SetLevel l).Clean = log.Clean ∧ (log.SetLevel l).Color = log.Color
      ∧ (log.SetLevel l).LogToFile = log.LogToFile
      ∧ (log.SetLevel l).LogFileName = log.LogFileName
      ∧ (log.SetLevel l).SuffixFunc = log.SuffixFunc
      ∧ (log.SetLevel l).PrefixFunc = log.PrefixFunc
      ∧ (log.SetLevel l).logFile = log.logFile ∧ (log.SetLevel l).writer = log.writer
      ∧ (log.SetLevel l).levels = log.levels ∧ (log.SetLevel l).formatter = log.formatter
      ∧ (log.SetLevel l).colorMap = log.colorMap)
    ∧ ((log.SetOutput w).writer = w ∧ (log.SetOutput w).Quiet = log.Quiet
      ∧ (log.SetOutput w).Clean = log.Clean ∧ (log.SetOutput w).Level = log.Level
      ∧ (log.SetOutput w).Color = log.Color ∧ (log.SetOutput w).LogToFile = log.LogToFile
      ∧ (log.SetOutput w).LogFileName = log.LogFileName
      ∧ (log.SetOutput w).SuffixFunc = log.SuffixFunc
      ∧ (log.SetOutput w).PrefixFunc = log.PrefixFunc
      ∧ (log.SetOutput w).logFile = log.logFile ∧ (log.SetOutput w).levels = log.levels
      ∧ (log.SetOutput w).formatter = log.formatter
      ∧ (log.SetOutput w).colorMap = log.colorMap)
    ∧ ((log.SetFile filename).LogFileName = filename
      ∧ (log.SetFile filename).Quiet = log.Quiet ∧ (log.SetFile filename).Clean = log.Clean
      ∧ (log.SetFile filename).Level = log.Level ∧ (log.SetFile filename).Color = log.Color
      ∧ (log.SetFile filename).LogToFile = log.LogToFile
      ∧ (log.SetFile filename).SuffixFunc = log.SuffixFunc
      ∧ (log.SetFile filename).PrefixFunc = log.PrefixFunc
      ∧ (log.SetFile filename).logFile = log.logFile
      ∧ (log.SetFile filename).writer = log.writer
      ∧ (log.SetFile filename).levels = log.levels
      ∧ (log.SetFile filename).formatter = log.formatter
      ∧ (log.SetFile filename).colorMap = log.colorMap)
    ∧ ((log.SetFormatter fm).formatter = fm ∧ (log.SetFormatter fm).Quiet = log.Quiet
      ∧ (log.SetFormatter fm).Clean = log.Clean ∧ (log.SetFormatter fm).Level = log.Level
      ∧ (log.SetFormatter fm).Color = log.Color
      ∧ (log.SetFormatter fm).LogToFile = log.LogToFile
      ∧ (log.SetFormatter fm).LogFileName = log.LogFileName
      ∧ (log.SetFormatter fm).SuffixFunc = log.SuffixFunc
      ∧ (log.SetFormatter fm).PrefixFunc = log.PrefixFunc
      ∧ (log.SetFormatter fm).logFile = log.logFile
      ∧ (log.SetFormatter fm).writer = log.writer
      ∧ (log.SetFormatter fm).levels = log.levels
      ∧ (log.SetFormatter fm).colorMap = log.colorMap)
    ∧ ((log.SetColorMap cm).colorMap = cm ∧ (log.SetColorMap cm).Quiet = log.Quiet
      ∧ (log.SetColorMap cm).Clean = log.Clean ∧ (log.SetColorMap cm).Level = log.Level
      ∧ (log.SetColorMap cm).Color = log.Color
      ∧ (log.SetColorMap cm).LogToFile = log.LogToFile
      ∧ (log.SetColorMap cm).LogFileName = log.LogFileName
      ∧ (log.SetColorMap cm).SuffixFunc = log.SuffixFunc
      ∧ (log.SetColorMap cm).PrefixFunc = log.PrefixFunc
      ∧ (log.SetColorMap cm).logFile = log.logFile
      ∧ (log.SetColorMap cm).writer = log.writer
      ∧ (log.SetColorMap cm).levels = log.levels
      ∧ (log.SetColorMap cm).formatter = log.formatter)
    ∧ ((log.SetIsLogToFile openF false).1.LogToFile = false
      ∧ (log.SetIsLogToFile openF false).1.logFile = none
      ∧ (log.SetIsLogToFile openF false).2 = []
      ∧ (log.SetIsLogToFile openF false).1.Quiet = log.Quiet
      ∧ (log.SetIsLogToFile openF false).1.Clean = log.Clean
      ∧ (log.SetIsLogToFile openF false).1.Level = log.Level
      ∧ (log.SetIsLogToFile openF false).1.Color = log.Color
      ∧ (log.SetIsLogToFile openF false).1.LogFileName = log.LogFileName
      ∧ (log.SetIsLogToFile openF false).1.SuffixFunc = log.SuffixFunc
      ∧ (log.SetIsLogToFile openF false).1.PrefixFunc = log.PrefixFunc
      ∧ (log.SetIsLogToFile openF false).1.writer = log.writer
      ∧ (log.SetIsLogToFile openF false).1.levels = log.levels
      ∧ (log.SetIsLogToFile openF false).1.formatter = log.formatter
      ∧ (log.SetIsLogToFile openF false).1.colorMap = log.colorMap)
    ∧ (log.SetIsLogToFile openF true
        = match openF log.LogFileName initLogFileFlags with
          | Except.ok f => ({ log with LogToFile := true, logFile := some f }, [])
          | Except.error _ =>
            ({ log with LogToFile := true, logFile := none },
              ["Error: Set log file is error"])) := by
  have htrue : log.SetIsLogToFile openF true
      = match openF log.LogFileName initLogFileFlags with
        | Except.ok f => ({ log with LogToFile := true, logFile := some f }, [])
        | Except.error _ =>
          ({ log with LogToFile := true, logFile := none },
            ["Error: Set log file is error"]) := by
    cases h : openF log.LogFileName initLogFileFlags with
    | ok f =>
      rw [Logger.SetIsLogToFile]
      simp only [if_pos rfl]
      rw [Logger.InitLogFile,
        show ({ log with LogToFile := true } : Logger).LogFileName = log.LogFileName from rfl, h]
      rfl
    | error e =>
      rw [Logger.SetIsLogToFile]
      simp only [if_pos rfl]
      rw [Logger.InitLogFile,
        show ({ log with LogToFile := true } : Logger).LogFileName = log.LogFileName from rfl, h]
      rfl
  repeat' apply And.intro
  all_goals first
    | exact htrue
    | rfl

/-- C10: the suffix token is replaced before the prefix token over the whole
line, so a prefix token inside the suffix producer's output is itself
replaced by the prefix producer's output, while a literal suffix token inside
the prefix producer's output survives verbatim into the final line. -/
theorem c10_suffix_token_replaced_first (g : Globals) (log : Logger) (m : String)
    (s1 s2 : List Char)
    (hf : log.formatter Gologs.Info = some "[-] %s \x7b\x7bsuffix\x7d\x7d\n")
    (hsfx : (log.SuffixFunc ()).data = s1 ++ (prefTok.data ++ s2))
    (h1 : ∀ i, i < ("[-] ".data ++ (m.data ++ " ".data)).length →
        startsWith suffTok.data
          ((("[-] ".data ++ (m.data ++ " ".data)) ++ suffTok.data ++ "\n".data).drop i) = false)
    (h3 : ∀ i, i < (("[-] ".data ++ (m.data ++ " ".data)) ++ s1).length →
        startsWith prefTok.data
          (((("[-] ".data ++ (m.data ++ " ".data)) ++ s1) ++ prefTok.data
              ++ (s2 ++ "\n".data)).drop i) = false)
    (h4 : hasOccur prefTok.data (s2 ++ "\n".data) = false) :
    log.Format g Gologs.Info [m]
      = String.mk ((("[-] ".data ++ (m.data ++ " ".data)) ++ s1)
          ++ ((log.PrefixFunc ()).data ++ (s2 ++ "\n".data)))
    ∧ (hasOccur suffTok.data (log.PrefixFunc ()).data = true →
        hasOccur suffTok.data (log.Format g Gologs.Info [m]).data = true) := by
  have hp1 : suffTok.data ≠ [] := by decide
  have hp2 : prefTok.data ≠ [] := by decide
  have hline : sprintf "[-] %s \x7b\x7bsuffix\x7d\x7d\n" [m]
      = String.mk (("[-] ".data ++ (m.data ++ " ".data)) ++ suffTok.data ++ "\n".data) := by
    refine congrArg String.mk ?_
    rw [show sprintfAux "[-] %s \x7b\x7bsuffix\x7d\x7d\n".data ([m].map String.data)
        = "[-] ".data ++ (m.data ++ (" ".data ++ (suffTok.data ++ "\n".data))) from rfl]
    simp [List.append_assoc]
  have hstep1 : stringsReplace
      (String.mk (("[-] ".data ++ (m.data ++ " ".data)) ++ suffTok.data ++ "\n".data))
      suffTok (log.SuffixFunc ())
      = String.mk (("[-] ".data ++ (m.data ++ " ".data))
          ++ ((s1 ++ (prefTok.data ++ s2)) ++ "\n".data)) := by
    unfold stringsReplace
    refine congrArg String.mk ?_
    rw [show (String.mk (("[-] ".data ++ (m.data ++ " ".data)) ++ suffTok.data ++ "\n".data)).data
        = ("[-] ".data ++ (m.data ++ " ".data)) ++ suffTok.data ++ "\n".data from rfl]
    rw [replAux_append_occur suffTok.data (log.SuffixFunc ()).data hp1
      ("[-] ".data ++ (m.data ++ " ".data)) "\n".data h1]
    rw [replAux_no_occur _ _ _ (by decide)]
    rw [hsfx]
    simp [List.append_assoc]
  have hstep2 : stringsReplace
      (String.mk (("[-] ".data ++ (m.data ++ " ".data))
          ++ ((s1 ++ (prefTok.data ++ s2)) ++ "\n".data)))
      prefTok (log.PrefixFunc ())
      = String.mk ((("[-] ".data ++ (m.data ++ " ".data)) ++ s1)
          ++ ((log.PrefixFunc ()).data ++ (s2 ++ "\n".data))) := by
    unfold stringsReplace
    refine congrArg String.mk ?_
    have hsame : (String.mk (("[-] ".data ++ (m.data ++ " ".data))
          ++ ((s1 ++ (prefTok.data ++ s2)) ++ "\n".data))).data
        = (("[-] ".data ++ (m.data ++ " ".data)) ++ s1) ++ prefTok.data ++ (s2 ++ "\n".data) := by
      simp [List.append_assoc]
    rw [hsame]
    rw [replAux_append_occur prefTok.data (log.PrefixFunc ()).data hp2
      (("[-] ".data ++ (m.data ++ " ".data)) ++ s1) (s2 ++ "\n".data) h3]
    rw [replAux_no_occur _ _ _ h4]
    simp [List.append_assoc]
  have hfmt : log.Format g Gologs.Info [m]
      = String.mk ((("[-] ".data ++ (m.data ++ " ".data)) ++ s1)
          ++ ((log.PrefixFunc ()).data ++ (s2 ++ "\n".data))) := by
    simp only [Logger.Format, hf]
    rw [hline, hstep1, hstep2]
  refine ⟨hfmt, fun hpx => ?_⟩
  rw [hfmt]
  exact hasOccur_append_right _ _ _ (hasOccur_append_left _ _ _ hpx)

/-- Logger used by the C10 witness: suffix producer emits a prefix token,
prefix producer emits a suffix token. -/
def tokenLogger : Logger :=
  { sampleLogger with
    SuffixFunc := fun _ => String.mk ("S".data ++ (prefTok.data ++ "T".data))
    PrefixFunc := fun _ => String.mk ("P".data ++ (suffTok.data ++ "Q".data)) }

/-- Witness for C10: rendering `"m"` at `Info` substitutes the prefix token
inside the suffix output while a suffix token in the prefix output survives
into the final line. -/
theorem c10_suffix_token_replaced_first_witness :
    Logger.Format sampleGlobals tokenLogger Gologs.Info ["m"]
      = String.mk ((("[-] ".data ++ ("m".data ++ " ".data)) ++ "S".data)
          ++ ((tokenLogger.PrefixFunc ()).data ++ ("T".data ++ "\n".data)))
    ∧ hasOccur suffTok.data (Logger.Format sampleGlobals tokenLogger Gologs.Info ["m"]).data
        = true := by
  have h := c10_suffix_token_replaced_first sampleGlobals tokenLogger "m" "S".data "T".data
    rfl rfl (by decide) (by decide) (by decide)
  exact ⟨h.1, h.2 (by decide)⟩

end Gologs
